import Mathlib

/-!
Verification of packages/draw/canvas.mjs (strudel canvas visualization).

The JavaScript module is embedded shallowly:
- numbers are modelled as exact rationals;
- JavaScript runtime values (as they appear in event payloads and option
  objects) are modelled by the inductive type JSVal, property access and
  destructuring follow ECMAScript semantics (typeof, truthiness, nullish
  coalescing, object spread with later keys overriding earlier ones,
  destructuring null or undefined throws a TypeError);
- code that can throw is modelled in Except String;
- the external collaborators noteToMidi and freqToMidi from the pattern
  engine are abstract parameters (noteToMidi may fail, modelled by Option);
- the webcam acquisition logic of the _canvas function is modelled as a
  state machine over the module-level mutable variables.
-/

namespace Canvas

/-- Model of a JavaScript runtime value as used by canvas.mjs: primitives
plus objects given as field lists (later entries override earlier ones,
matching object-spread semantics). -/
inductive JSVal where
  | undefined : JSVal
  | null : JSVal
  | num : ℚ → JSVal
  | str : String → JSVal
  | bool : Bool → JSVal
  | obj : List (String × JSVal) → JSVal

/-- A value is nullish when it is null or undefined: exactly the values
whose destructuring throws a TypeError and that the ?? operator skips. -/
def JSVal.isNullish : JSVal → Bool
  | .null => true
  | .undefined => true
  | _ => false

/-- JavaScript typeof operator restricted to the values of the model.
Note typeof null is "object". -/
def typeof : JSVal → String
  | .undefined => "undefined"
  | .null => "object"
  | .num _ => "number"
  | .str _ => "string"
  | .bool _ => "boolean"
  | .obj _ => "object"

/-- JavaScript truthiness: undefined, null, 0, the empty string and false
are falsy; objects are always truthy. -/
def truthy : JSVal → Bool
  | .undefined => false
  | .null => false
  | .num q => q != 0
  | .str s => s != ""
  | .bool b => b
  | .obj _ => true

/-- Last-wins lookup in an object field list: the value of the last entry
with the given key, if any (JavaScript object literals and spreads let
later keys override earlier ones). -/
def objGet (fields : List (String × JSVal)) (key : String) : Option JSVal :=
  (fields.reverse.find? (fun kv => kv.1 == key)).map (fun kv => kv.2)

/-- JavaScript property access v[key]: on an object, the stored value or
undefined when absent; on primitives, undefined (prototype properties are
not used by canvas.mjs). -/
def getField (v : JSVal) (key : String) : JSVal :=
  match v with
  | .obj fields => (objGet fields key).getD .undefined
  | _ => .undefined

/-- JavaScript nullish coalescing a ?? b. -/
def nullish (a b : JSVal) : JSVal :=
  if a.isNullish then b else a

/-- JavaScript ToString as needed by the string concatenation in getValue.
Number formatting is approximated by the rational printer; the claims only
exercise the string case. -/
def jsToString : JSVal → String
  | .undefined => "undefined"
  | .null => "null"
  | .num q => toString q
  | .str s => s
  | .bool b => cond b "true" "false"
  | .obj _ => "[object Object]"

/-- getValue from canvas.mjs lines 12-38, parametrized by the external
collaborators noteToMidi (ntm, which may throw InvalidNoteName, modelled
by Option) and freqToMidi (ftm). The event e is destructured for its
value; a non-object value is wrapped as an object. Destructuring null or
undefined throws a TypeError, which the source does not guard against. -/
def getValue (ntm : String → Option ℚ) (ftm : JSVal → ℚ) (e : JSVal) :
    Except String JSVal :=
  if e.isNullish then
    .error "TypeError: cannot destructure null or undefined"
  else
    let v0 := getField e "value"
    let value := if typeof v0 ≠ "object" then JSVal.obj [("value", v0)] else v0
    if value.isNullish then
      .error "TypeError: cannot destructure null or undefined"
    else
      let note0 := getField value "note"
      let n := getField value "n"
      let freq := getField value "freq"
      let s := getField value "s"
      if truthy freq then .ok (.num (ftm freq))
      else
        match nullish note0 n with
        | .str name =>
          match ntm name with
          | some m => .ok (.num m)
          | none => .ok (.num 0)
        | .num q => .ok (.num q)
        | _ => if truthy s then .ok (.str ("_" ++ jsToString s)) else .ok value

/-- The options read by Pattern.prototype.canvas (line 75) with their
source defaults: cycles = 4, playhead = 0.5, overscan = 0,
hideNegative = false. -/
structure CanvasConfig where
  cycles : ℚ := 4
  playhead : ℚ := 1/2
  overscan : ℚ := 0
  hideNegative : Bool := false
deriving DecidableEq

/-- Lower window bound from canvas.mjs line 77: from = -cycles * playhead. -/
def canvasFrom (cfg : CanvasConfig) : ℚ := -cfg.cycles * cfg.playhead

/-- Upper window bound from canvas.mjs line 78: to = cycles * (1 - playhead). -/
def canvasTo (cfg : CanvasConfig) : ℚ := cfg.cycles * (1 - cfg.playhead)

/-- The drawTime pair handed to Pattern.draw (canvas.mjs lines 90-91):
lookbehind = from - overscan, lookahead = to + overscan. -/
def canvasDrawTime (cfg : CanvasConfig) : ℚ × ℚ :=
  (canvasFrom cfg - cfg.overscan, canvasTo cfg + cfg.overscan)

/-- An event (hap) interval as used by the frame filter: the whole with
begin and end times. -/
structure Hap where
  wholeBegin : ℚ
  wholeEnd : ℚ
deriving DecidableEq

/-- Modelled from the spec: Hap.isWithinTime is a pattern-engine method not
present under src/; per the spec it tests whether the event overlaps the
half-open time range, inclusive of partial overlaps, not just full
containment. Overlap of the half-open intervals of the whole and of the
query range. -/
def Hap.isWithinTime (hap : Hap) (a b : ℚ) : Bool :=
  hap.wholeBegin < b && a < hap.wholeEnd

/-- inFrame from canvas.mjs line 79:
(!hideNegative || hap.whole.begin >= 0) && hap.isWithinTime(t + from, t + to). -/
def inFrame (cfg : CanvasConfig) (hap : Hap) (t : ℚ) : Bool :=
  (!cfg.hideNegative || hap.wholeBegin ≥ 0) &&
    hap.isWithinTime (t + canvasFrom cfg) (t + canvasTo cfg)

/-- getDrawOptions from canvas.mjs lines 257-263: takes the drawTime pair
(lookbehind, lookahead) and the caller options object, and returns the
object literal (fold defaulted to 1, then the options spread, then the
computed cycles and playhead, later keys overriding earlier ones). -/
def getDrawOptions (drawTime : ℚ × ℚ) (options : List (String × JSVal)) :
    List (String × JSVal) :=
  let lookbehind := |drawTime.1|
  let lookahead := drawTime.2
  let cycles := lookahead + lookbehind
  let playhead := if cycles ≠ 0 then lookbehind / cycles else 0
  [("fold", .num 1)] ++ options ++ [("cycles", .num cycles), ("playhead", .num playhead)]

/-- The module-level mutable webcam state of canvas.mjs (lines 109-112)
relevant to camera acquisition, together with counters of the observable
actions: getUserMedia calls and fallback-frame draws. -/
structure WebcamState where
  webcamVideo : Bool
  webcamDrawLoopStarted : Bool
  getUserMediaCalls : ℕ
  fallbackDraws : ℕ
deriving DecidableEq

/-- The initial module state: webcamVideo = null, loop not started, no
observable actions yet. -/
def initialWebcamState : WebcamState :=
  ⟨false, false, 0, 0⟩

/-- One invocation of _canvas (canvas.mjs lines 130-254) restricted to the
camera-acquisition control flow; granted says whether the getUserMedia
call of this tick resolves or rejects. If webcamVideo is unset the
function calls getUserMedia; on rejection it draws the fallback frame and
returns; on success it creates the video element (webcamVideo set).
Otherwise it proceeds to start the draw loop once. -/
def canvasTick (granted : Bool) (s : WebcamState) : WebcamState :=
  if !s.webcamVideo then
    let s1 : WebcamState :=
      { s with getUserMediaCalls := s.getUserMediaCalls + 1 }
    if granted then
      let s2 : WebcamState := { s1 with webcamVideo := true }
      if !s2.webcamDrawLoopStarted then
        { s2 with webcamDrawLoopStarted := true }
      else s2
    else
      { s1 with fallbackDraws := s1.fallbackDraws + 1 }
  else if !s.webcamDrawLoopStarted then
    { s with webcamDrawLoopStarted := true }
  else s

/-- A 2D landmark position as delivered by the pose model. -/
structure Keypoint where
  x : ℚ
  y : ℚ
deriving DecidableEq

/-- A detection result entry: confidence score, handedness label and the
keypoint list (index 4 is the thumb tip, index 8 the index fingertip). -/
structure Hand where
  confidence : ℚ
  handedness : String
  keypoints : List Keypoint
deriving DecidableEq

/-- Rational model of Math.sqrt: the square root truncated to 8 decimal
digits (a double holds about 16 significant digits, so for the inputs of
interest this agrees with the float result on every digit that survives
the subsequent rounding to one decimal). Negative inputs (NaN in
JavaScript) are mapped to 0. -/
def jsSqrt (q : ℚ) : ℚ :=
  if q < 0 then 0 else (Nat.sqrt ⌊q * 10 ^ 16⌋.toNat : ℚ) / 10 ^ 8

/-- Numeric value of Number.prototype.toFixed(1): rounding to one decimal
digit, ties toward the larger value (all uses are nonnegative). The source
keeps the result as a string; this models the numeric content of that
string. -/
def toFixed1 (q : ℚ) : ℚ :=
  round (q * 10) / 10

/-- The distance computation of drawFrame (canvas.mjs lines 230-233):
dx = indexTip.x - thumbTip.x, dy = indexTip.y - thumbTip.y,
distance = Math.sqrt(dx*dx + dy*dy).toFixed(1). -/
def fingertipDistance (thumbTip indexTip : Keypoint) : ℚ :=
  toFixed1 (jsSqrt ((indexTip.x - thumbTip.x) * (indexTip.x - thumbTip.x) +
    (indexTip.y - thumbTip.y) * (indexTip.y - thumbTip.y)))

/-- The per-frame hand processing of drawFrame (canvas.mjs lines 194-246)
projected to its observable outputs: for each hand with confidence above
0.8 whose keypoints 4 (thumb tip) and 8 (index fingertip) are present, the
distance label rendered at the fingertip midpoint and the callback
invocation (distance, hand). -/
def drawFrameCalls (hands : List Hand) : List (ℚ × Hand) :=
  hands.filterMap (fun hand =>
    if hand.confidence > 0.8 then
      match hand.keypoints.get? 4, hand.keypoints.get? 8 with
      | some thumbTip, some indexTip =>
        some (fingertipDistance thumbTip indexTip, hand)
      | _, _ => none
    else none)

/-- A sample instantiation of the external noteToMidi collaborator that
rejects every note name (used to exercise the failure branch on inputs the
real converter also rejects, such as "not-a-note"). -/
def ntmReject : String → Option ℚ := fun _ => none

/-- A sample instantiation of the external freqToMidi collaborator,
constantly 0 (per the spec interface it returns a number). -/
def ftmZero : JSVal → ℚ := fun _ => 0

/-- A sample instantiation of the external freqToMidi collaborator,
constantly 7. -/
def ftmSeven : JSVal → ℚ := fun _ => 7

lemma objGet_getDrawOptions_cycles (dt : ℚ × ℚ) (options : List (String × JSVal)) :
    objGet (getDrawOptions dt options) "cycles" = some (.num (dt.2 + |dt.1|)) := by
  simp [getDrawOptions, objGet, List.find?]

lemma objGet_getDrawOptions_playhead (dt : ℚ × ℚ) (options : List (String × JSVal)) :
    objGet (getDrawOptions dt options) "playhead" =
      some (.num (if dt.2 + |dt.1| ≠ 0 then |dt.1| / (dt.2 + |dt.1|) else 0)) := by
  simp [getDrawOptions, objGet, List.find?]

lemma objGet_getDrawOptions_fold (dt : ℚ × ℚ) (options : List (String × JSVal)) :
    objGet (getDrawOptions dt options) "fold" =
      some ((objGet options "fold").getD (.num 1)) := by
  simp only [getDrawOptions, objGet, List.append_assoc, List.reverse_append,
    List.reverse_cons, List.reverse_nil, List.nil_append, List.cons_append,
    List.append_nil]
  rw [List.find?_cons_of_neg _ (by simp), List.find?_cons_of_neg _ (by simp),
    List.find?_append, List.find?_cons_of_pos _ (by simp)]
  cases h : List.find? (fun kv => kv.1 == "fold") options.reverse with
  | none => simp [h, Option.or]
  | some kv => simp [h, Option.or]

/-- C1: the window computed when attaching a canvas visualization satisfies
from = -cyclesVisible * playheadFraction and
to = cyclesVisible * (1 - playheadFraction); in particular cyclesVisible = 4
and playheadFraction = 0.5 yield from = -2 and to = 2. -/
theorem C1_canvas_window_formula :
    (∀ cfg : CanvasConfig,
      canvasFrom cfg = -cfg.cycles * cfg.playhead ∧
      canvasTo cfg = cfg.cycles * (1 - cfg.playhead)) ∧
    canvasFrom ⟨4, 1/2, 0, false⟩ = -2 ∧ canvasTo ⟨4, 1/2, 0, false⟩ = 2 :=
  ⟨fun _ => ⟨rfl, rfl⟩, by norm_num [canvasFrom], by norm_num [canvasTo]⟩

/-- C2 counterexample: at cyclesVisible = 0 and playheadFraction = 1 the
window is (0, 0) and the inferred playhead is 0, not the original 1, so
the round trip does not recover the pair (the error is 1, far beyond any
floating-point tolerance). -/
theorem C2_roundtrip_counterexample :
    objGet (getDrawOptions (canvasDrawTime ⟨0, 1, 0, false⟩) []) "playhead" =
      some (.num 0) ∧ (0 : ℚ) ≠ 1 := by
  constructor
  · rw [show canvasDrawTime ⟨0, 1, 0, false⟩ = ((0 : ℚ), (0 : ℚ)) by
      simp [canvasDrawTime, canvasFrom, canvasTo]]
    rw [objGet_getDrawOptions_playhead]
    norm_num
  · norm_num

/-- C2 (amended to cyclesVisible > 0): for every cyclesVisible > 0 and
playheadFraction in [0, 1], computing the window and then inferring the
parameters back with getDrawOptions recovers the original pair exactly. -/
theorem C2_roundtrip (c p : ℚ) (hc : 0 < c) (hp0 : 0 ≤ p) (_hp1 : p ≤ 1) :
    objGet (getDrawOptions (canvasDrawTime ⟨c, p, 0, false⟩) []) "cycles" =
      some (.num c) ∧
    objGet (getDrawOptions (canvasDrawTime ⟨c, p, 0, false⟩) []) "playhead" =
      some (.num p) := by
  have hdt : canvasDrawTime ⟨c, p, 0, false⟩ = (-c * p, c * (1 - p)) := by
    simp [canvasDrawTime, canvasFrom, canvasTo]
  have habs : |c * p| = c * p := abs_of_nonneg (mul_nonneg hc.le hp0)
  have hcyc : c * (1 - p) + c * p = c := by ring
  refine ⟨?_, ?_⟩
  · rw [hdt, objGet_getDrawOptions_cycles]
    simp [habs, hcyc]
  · rw [hdt, objGet_getDrawOptions_playhead]
    simp only [neg_mul, abs_neg, habs, hcyc]
    rw [if_pos hc.ne', mul_div_cancel_left₀ p hc.ne']

/-- C2 witness: the round trip at cyclesVisible = 4,
playheadFraction = 1/2. -/
theorem C2_roundtrip_witness :
    objGet (getDrawOptions (canvasDrawTime ⟨4, 1/2, 0, false⟩) []) "cycles" =
      some (.num 4) ∧
    objGet (getDrawOptions (canvasDrawTime ⟨4, 1/2, 0, false⟩) []) "playhead" =
      some (.num (1/2)) :=
  C2_roundtrip 4 (1/2) (by norm_num) (by norm_num) (by norm_num)

/-- C7: for every options object, getDrawOptions with
lookbehind = lookahead = 0 yields playheadFraction 0 (and cycles 0): the
division by cycles is guarded so the zero-cycles case is defined as 0. -/
theorem C7_zero_cycles_playhead (options : List (String × JSVal)) :
    objGet (getDrawOptions (0, 0) options) "playhead" = some (.num 0) ∧
    objGet (getDrawOptions (0, 0) options) "cycles" = some (.num 0) := by
  refine ⟨?_, ?_⟩
  · rw [objGet_getDrawOptions_playhead]
    norm_num
  · rw [objGet_getDrawOptions_cycles]
    norm_num

/-- C10: for every options object and drawTime pair, getDrawOptions always
carries cycles = lookahead + abs lookbehind and the playhead derived from
drawTime, overriding any caller-supplied cycles or playhead, while fold
defaults to 1 only when the caller does not supply it. -/
theorem C10_getDrawOptions_overrides (dt : ℚ × ℚ) (options : List (String × JSVal)) :
    objGet (getDrawOptions dt options) "cycles" = some (.num (dt.2 + |dt.1|)) ∧
    objGet (getDrawOptions dt options) "playhead" =
      some (.num (if dt.2 + |dt.1| ≠ 0 then |dt.1| / (dt.2 + |dt.1|) else 0)) ∧
    objGet (getDrawOptions dt options) "fold" =
      some ((objGet options "fold").getD (.num 1)) :=
  ⟨objGet_getDrawOptions_cycles dt options,
   objGet_getDrawOptions_playhead dt options,
   objGet_getDrawOptions_fold dt options⟩

/-- C3: an event is in frame iff (hideNegative is false or the whole
begins at nonnegative time) and the event is within the half-open range
from currentTime + from to currentTime + to per the engine's isWithinTime;
toggling hideNegative never changes the visibility of an event whose whole
begins at nonnegative time; and the event with whole interval from -1 to 1
under the window covering -2 to 2 is excluded when hideNegative is true
and included when it is false. -/
theorem C3_inFrame_rule :
    (∀ (cfg : CanvasConfig) (hap : Hap) (t : ℚ),
      inFrame cfg hap t = true ↔
        ((cfg.hideNegative = false ∨ 0 ≤ hap.wholeBegin) ∧
          hap.isWithinTime (t + canvasFrom cfg) (t + canvasTo cfg) = true)) ∧
    (∀ (c p ov : ℚ) (hap : Hap) (t : ℚ), 0 ≤ hap.wholeBegin →
      inFrame ⟨c, p, ov, true⟩ hap t = inFrame ⟨c, p, ov, false⟩ hap t) ∧
    inFrame ⟨4, 1/2, 0, true⟩ ⟨-1, 1⟩ 0 = false ∧
    inFrame ⟨4, 1/2, 0, false⟩ ⟨-1, 1⟩ 0 = true := by
  refine ⟨?_, ?_, ?_, ?_⟩
  · intro cfg hap t
    simp [inFrame, Bool.and_eq_true, Bool.or_eq_true, Bool.not_eq_true',
      decide_eq_true_eq, ge_iff_le]
  · intro c p ov hap t h
    simp [inFrame, canvasFrom, canvasTo, ge_iff_le, h]
  · norm_num [inFrame, Hap.isWithinTime, canvasFrom, canvasTo]
  · norm_num [inFrame, Hap.isWithinTime, canvasFrom, canvasTo]

/-- C3 witness: for an event beginning at time 0 (nonnegative), toggling
hideNegative does not change the frame-filter verdict. -/
theorem C3_inFrame_rule_witness :
    inFrame ⟨4, 1/2, 0, true⟩ ⟨0, 1⟩ 0 = inFrame ⟨4, 1/2, 0, false⟩ ⟨0, 1⟩ 0 :=
  C3_inFrame_rule.2.1 4 (1/2) 0 ⟨0, 1⟩ 0 (by norm_num)

/-- C4 (code bug): getValue is not total. On the payload null, typeof null
is "object", so the scalar-wrapping guard is skipped, and the destructuring
of the null value throws a TypeError, for every instantiation of the
external converters. -/
theorem C4_getValue_null_payload_throws (ntm : String → Option ℚ) (ftm : JSVal → ℚ) :
    getValue ntm ftm (.obj [("value", .null)]) =
      .error "TypeError: cannot destructure null or undefined" := rfl

/-- C5 counterexample: in the payload with fields freq = 0 and s = "bd" the
frequency field is present, yet getValue returns the tagged string "_bd"
(never a number, in particular not the freqToMidi image of the frequency):
the source tests truthiness of freq, not presence, and 0 is falsy. -/
theorem C5_freq_present_counterexample :
    getValue ntmReject ftmZero
        (.obj [("value", .obj [("freq", .num 0), ("s", .str "bd")])]) =
      .ok (.str "_bd") ∧
    JSVal.str "_bd" ≠ JSVal.num (ftmZero (.num 0)) :=
  ⟨rfl, by simp [ftmZero]⟩

/-- C5 (amended to truthy freq): for every payload object whose freq field
is truthy (in particular any nonzero numeric frequency), getValue returns
freqToMidi applied to that field, regardless of any note, n or s fields
also present. -/
theorem C5_freq_precedence (ntm : String → Option ℚ) (ftm : JSVal → ℚ)
    (fields : List (String × JSVal))
    (h : truthy (getField (.obj fields) "freq") = true) :
    getValue ntm ftm (.obj [("value", .obj fields)]) =
      .ok (.num (ftm (getField (.obj fields) "freq"))) := by
  simp [getValue, getField, objGet, List.find?, typeof, JSVal.isNullish] at h ⊢
  simp [h]

/-- C5 witness: the payload with freq = 440 and note = 5 resolves through
freqToMidi. -/
theorem C5_freq_precedence_witness :
    truthy (getField (.obj [("freq", .num 440), ("note", .num 5)]) "freq") = true ∧
    getValue ntmReject ftmZero
        (.obj [("value", .obj [("freq", .num 440), ("note", .num 5)])]) =
      .ok (.num (ftmZero (getField (.obj [("freq", .num 440), ("note", .num 5)]) "freq"))) :=
  ⟨rfl, C5_freq_precedence ntmReject ftmZero _ rfl⟩

/-- C6 counterexample: the payload with a truthy freq field 1 and the note
"not-a-note" (rejected by the name-to-pitch conversion) does not yield 0:
the frequency branch returns first (here freqToMidi constantly 7). -/
theorem C6_invalid_note_counterexample :
    getValue ntmReject ftmSeven
        (.obj [("value", .obj [("freq", .num 1), ("note", .str "not-a-note")])]) =
      .ok (.num 7) ∧
    JSVal.num 7 ≠ JSVal.num 0 :=
  ⟨rfl, by simp⟩

/-- C6 (amended to payloads without a truthy freq field): when freq is
absent or falsy and the note field (with n fallback) is a string the
name-to-pitch conversion rejects, getValue returns 0 and suppresses the
error. -/
theorem C6_invalid_note_fallback (ntm : String → Option ℚ) (ftm : JSVal → ℚ)
    (fields : List (String × JSVal)) (name : String)
    (hfreq : truthy (getField (.obj fields) "freq") = false)
    (hnote : nullish (getField (.obj fields) "note") (getField (.obj fields) "n") =
      .str name)
    (hreject : ntm name = none) :
    getValue ntm ftm (.obj [("value", .obj fields)]) = .ok (.num 0) := by
  simp [getValue, getField, objGet, List.find?, typeof, JSVal.isNullish] at hfreq hnote ⊢
  simp [hfreq, hnote, hreject]

/-- C6 witness: the payload with note = "not-a-note" under an all-rejecting
name-to-pitch conversion yields 0 without raising. -/
theorem C6_invalid_note_fallback_witness :
    truthy (getField (.obj [("note", .str "not-a-note")]) "freq") = false ∧
    nullish (getField (.obj [("note", .str "not-a-note")]) "note")
      (getField (.obj [("note", .str "not-a-note")]) "n") = .str "not-a-note" ∧
    ntmReject "not-a-note" = none ∧
    getValue ntmReject ftmZero (.obj [("value", .obj [("note", .str "not-a-note")])]) =
      .ok (.num 0) :=
  ⟨rfl, rfl, rfl, C6_invalid_note_fallback ntmReject ftmZero _ "not-a-note" rfl rfl rfl⟩

/-- C8 (code bug): when the camera is denied, webcamVideo stays unset, so
the next invocation of _canvas calls getUserMedia again and draws the
fallback frame again: after two denied ticks both counters are 2, not 1 as
the claim (and the source comment at line 134, only request webcam once)
require. -/
theorem C8_webcam_denied_retries :
    (canvasTick false (canvasTick false initialWebcamState)).fallbackDraws = 2 ∧
    (canvasTick false (canvasTick false initialWebcamState)).getUserMediaCalls = 2 :=
  ⟨rfl, rfl⟩

lemma natSqrt_2e16 : Nat.sqrt 20000000000000000 = 141421356 := by
  have h1 : 141421356 ≤ Nat.sqrt 20000000000000000 := Nat.le_sqrt.mpr (by norm_num)
  have h2 : Nat.sqrt 20000000000000000 < 141421357 := Nat.sqrt_lt.mpr (by norm_num)
  omega

lemma jsSqrt_two : jsSqrt 2 = 141421356 / 10 ^ 8 := by
  rw [jsSqrt, if_neg (by norm_num)]
  rw [show ⌊(2 : ℚ) * 10 ^ 16⌋ = 20000000000000000 by norm_num,
    show (20000000000000000 : ℤ).toNat = 20000000000000000 from rfl, natSqrt_2e16]
  norm_num

lemma fingertipDistance_sample : fingertipDistance ⟨0, 0⟩ ⟨1, 1⟩ = 7/5 := by
  rw [fingertipDistance]
  norm_num [jsSqrt_two, toFixed1, round_eq]

lemma abs_toFixed1_sub_le (q : ℚ) : |toFixed1 q - q| ≤ 1/20 := by
  have h : |(round (q * 10) : ℚ) - q * 10| ≤ 1/2 := by
    rw [abs_sub_comm]; exact abs_sub_round (q * 10)
  have heq : toFixed1 q - q = ((round (q * 10) : ℚ) - q * 10) / 10 := by
    rw [toFixed1]; ring
  rw [heq, abs_div, show |(10 : ℚ)| = 10 by norm_num]
  linarith [abs_nonneg ((round (q * 10) : ℚ) - q * 10)]

/-- A detection with full confidence whose thumb tip (keypoint 4) sits at
the origin and whose index fingertip (keypoint 8) sits at (1, 1); their
exact Euclidean distance is the square root of 2. -/
def handSample : Hand :=
  ⟨1, "Left", List.replicate 8 ⟨0, 0⟩ ++ [⟨1, 1⟩] ++ List.replicate 12 ⟨0, 0⟩⟩

lemma drawFrameCalls_single (hand : Hand) (thumbTip indexTip : Keypoint)
    (hconf : hand.confidence > 0.8)
    (h4 : hand.keypoints.get? 4 = some thumbTip)
    (h8 : hand.keypoints.get? 8 = some indexTip) :
    drawFrameCalls [hand] = [(fingertipDistance thumbTip indexTip, hand)] := by
  simp only [drawFrameCalls, List.filterMap_cons, List.filterMap_nil]
  rw [if_pos hconf, h4, h8]

/-- C9 counterexample: for the sample hand the value rendered and passed
to the gesture callback is 7/5 (the string "1.4" in the source), whose
square is not the squared keypoint distance 2, so it is not the exact
Euclidean distance between the fingertips: toFixed(1) rounds it. -/
theorem C9_distance_counterexample :
    drawFrameCalls [handSample] = [(7/5, handSample)] ∧
    ((7 : ℚ)/5) ^ 2 ≠ ((1 : ℚ) - 0) ^ 2 + ((1 : ℚ) - 0) ^ 2 := by
  constructor
  · rw [drawFrameCalls_single handSample ⟨0, 0⟩ ⟨1, 1⟩ (by norm_num [handSample]) rfl rfl,
      fingertipDistance_sample]
  · norm_num

/-- C9 (amended to the rounded value): for every hand with confidence
above the threshold whose thumb-tip and index-tip keypoints are present,
the value rendered and passed to the callback is the platform square root
of the squared keypoint distance rounded to one decimal place, hence
within 1/20 of that square root (not the exact Euclidean distance). -/
theorem C9_distance_rounded (hand : Hand) (thumbTip indexTip : Keypoint)
    (hconf : hand.confidence > 0.8)
    (h4 : hand.keypoints.get? 4 = some thumbTip)
    (h8 : hand.keypoints.get? 8 = some indexTip) :
    drawFrameCalls [hand] = [(fingertipDistance thumbTip indexTip, hand)] ∧
    |fingertipDistance thumbTip indexTip -
        jsSqrt ((indexTip.x - thumbTip.x) * (indexTip.x - thumbTip.x) +
          (indexTip.y - thumbTip.y) * (indexTip.y - thumbTip.y))| ≤ 1/20 := by
  constructor
  · exact drawFrameCalls_single hand thumbTip indexTip hconf h4 h8
  · exact abs_toFixed1_sub_le _

/-- C9 witness: the amended statement at the sample hand. -/
theorem C9_distance_rounded_witness :
    handSample.confidence > 0.8 ∧
    handSample.keypoints.get? 4 = some ⟨0, 0⟩ ∧
    handSample.keypoints.get? 8 = some ⟨1, 1⟩ ∧
    (drawFrameCalls [handSample] = [(fingertipDistance ⟨0, 0⟩ ⟨1, 1⟩, handSample)] ∧
      |fingertipDistance ⟨0, 0⟩ ⟨1, 1⟩ -
          jsSqrt ((((1 : ℚ)) - 0) * (((1 : ℚ)) - 0) + (((1 : ℚ)) - 0) * (((1 : ℚ)) - 0))| ≤ 1/20) :=
  ⟨by norm_num [handSample], rfl, rfl,
    C9_distance_rounded handSample ⟨0, 0⟩ ⟨1, 1⟩ (by norm_num [handSample]) rfl rfl⟩

end Canvas
